import Mathlib

/-!
Shallow embedding of the go-plugins NSQ broker adapter (broker/nsq/nsq.go).

External collaborators (the go-nsq client, the body codec, UUID generation,
randomness) are modelled as explicit inputs: an `Env` record injects the
success or failure of each external call, a `Nat` counter drives fresh UUID
generation, and the random producer index is passed as a parameter.  Go
state mutation is modelled by explicit state passing on the `Broker`
structure; a Go runtime panic is a distinguished result constructor.
-/

namespace Nsq

/-- Errors returned by external calls and by the adapter; kept opaque as strings. -/
abbrev Err := String

/-- Generic message envelope (go-micro broker.Message): headers plus an opaque body. -/
structure Message where
  header : List (String × String)
  body : List Nat
deriving Repr, DecidableEq

/-- Pluggable body codec (go-micro broker/codec): marshal and unmarshal, either of
which can fail. -/
structure Codec where
  marshal : Message → Except Err (List Nat)
  unmarshal : List Nat → Except Err Message

/-- Broker options (go-micro broker.Options) as read by this adapter: the configured
addresses and the codec. -/
structure Options where
  addrs : List String
  codec : Codec

/-- Client tuning configuration (nsq.Config): the MaxInFlight field the adapter
manipulates, plus an opaque remainder standing for every other tuning field. -/
structure Config where
  maxInFlight : Int
  rest : Nat
deriving Repr, DecidableEq

/-- Default client configuration (nsq.NewConfig). -/
def newConfig : Config := { maxInFlight := 1, rest := 0 }

/-- A producer handle (nsq.Producer), recording the address and the configuration it
was created with. -/
structure Producer where
  addr : String
  config : Config
deriving Repr, DecidableEq

/-- A raw queue message (nsq.Message): its body and whether DisableAutoResponse has
been called on it. -/
structure NSQMessage where
  body : List Nat
  autoResponseDisabled : Bool
deriving Repr, DecidableEq

/-- Per-delivery publication handed to the caller handler (publication struct):
topic, decoded envelope, and the raw message it wraps. -/
structure Publication where
  topic : String
  m : Message
  nm : NSQMessage
deriving Repr, DecidableEq

/-- Observed outcome of one dispatch-shim invocation: the (possibly
auto-response-disabled) raw message, the publication the caller handler was invoked
with (none when the handler was not invoked), and the error value returned to the
queue client. -/
structure ShimOut where
  msg : NSQMessage
  invoked : Option Publication
  ret : Option Err
deriving Repr, DecidableEq

/-- A handler attached to a consumer (nsq.HandlerFunc): the dispatch shim. -/
abbrev HandlerFunc := NSQMessage → ShimOut

/-- Context values recognized by Subscribe (concurrentHandlerKey, maxInFlightKey),
modelled as optional typed fields of the options context bag. -/
structure SubCtx where
  concurrentHandlers : Option Int
  maxInFlight : Option Int
deriving Repr, DecidableEq

/-- go-micro broker.SubscribeOptions as read by this adapter: AutoAck, Queue, and
the context bag. -/
structure SubscribeOptions where
  autoAck : Bool
  queue : String
  context : Option SubCtx
deriving Repr, DecidableEq

/-- Context values recognized by Publish (asyncPublishKey: a completion channel,
identified here by a numeric id; deferredPublishKey: a delay duration). -/
structure PubCtx where
  asyncChan : Option Nat
  deferredDelay : Option Int
deriving Repr, DecidableEq

/-- go-micro broker.PublishOptions as read by this adapter: only the context bag. -/
structure PublishOptions where
  context : Option PubCtx
deriving Repr, DecidableEq

/-- A consumer handle (nsq.Consumer): its creation parameters, the attached
handlers with their concurrency, the addresses it is connected to, and whether it
has been stopped. -/
structure Consumer where
  topic : String
  channel : String
  config : Config
  handlers : List (HandlerFunc × Int)
  connectedTo : List String
  viaLookupd : Bool
  stopped : Bool

/-- Subscription record (the subscriber struct): topic, resolved options, the live
consumer handle, the dispatch shim kept for re-subscription, and the concurrency. -/
structure Subscriber where
  topic : String
  opts : SubscribeOptions
  c : Consumer
  h : HandlerFunc
  n : Int

/-- Broker state (the nsqBroker struct): configured addresses, options, client
configuration, the running flag, the producer pool, and the subscription records. -/
structure Broker where
  nsqdTCPAddrs : List String
  lookupdHTTPAddrs : List String
  opts : Options
  config : Config
  running : Bool
  p : List Producer
  c : List Subscriber

/-- The four distinct underlying send operations of the nsq producer. -/
inductive SendOp where
  | deferredPublishAsync (topic : String) (delay : Int) (body : List Nat) (ch : Nat)
  | publishAsync (topic : String) (body : List Nat) (ch : Nat)
  | deferredPublish (topic : String) (delay : Int) (body : List Nat)
  | publish (topic : String) (body : List Nat)
deriving Repr, DecidableEq

/-- Result of a Publish call: a send operation dispatched on a chosen producer
together with the transport result, a codec error returned before any send, or a
Go runtime panic. -/
inductive PubResult where
  | sent (chosen : Producer) (op : SendOp) (ret : Option Err)
  | codecError (e : Err)
  | panicked (msg : String)
deriving Repr, DecidableEq

/-- Trace entries for external calls made by Connect, used to state that an
idempotent Connect performs no connection work. -/
inductive ExtCall where
  | newProducer (addr : String)
  | ping (addr : String)
  | newConsumer (topic channel : String)
  | addHandlers (topic channel : String) (n : Int)
  | connectLookupds (topic : String) (addrs : List String)
  | connectNSQDs (topic : String) (addrs : List String)
deriving Repr, DecidableEq

/-- Environment of external calls: each entry yields the failure (some e) or
success (none) of the corresponding external operation, keyed by its arguments;
uuid is the stream of generated unique identifiers; sendErr is the transport
result of a producer send operation. -/
structure Env where
  newProducerErr : String → Option Err
  pingErr : String → Option Err
  newConsumerErr : String → String → Option Err
  nsqdConnectErr : String → String → Option Err
  lookupdConnectErr : String → String → Option Err
  uuid : Nat → String
  sendErr : SendOp → Option Err

/-- Application of a list of functional options to a base value, as Go applies
variadic option functions in order. -/
def applyOptions {α : Type} (base : α) (optfns : List (α → α)) : α :=
  optfns.foldl (fun acc f => f acc) base

/-- Stand-in for the external JSON codec (go-micro broker/codec/json).  The codec
is an external collaborator; only its Except-valued interface matters to the
adapter, so the stand-in carries the body through and drops headers. -/
def jsonCodec : Codec :=
  { marshal := fun m => .ok m.body
    unmarshal := fun b => .ok { header := [], body := b } }

/-- Default broker options in NewBroker: no addresses and the JSON codec. -/
def defaultOptions : Options := { addrs := [], codec := jsonCodec }

/-- Address resolution in NewBroker: keep the nonempty configured addresses, and
fall back to the well-known local address when none remain. -/
def resolveAddrs (addrs : List String) : List String :=
  match addrs.filter (fun a => 0 < a.length) with
  | [] => ["127.0.0.1:4150"]
  | a :: rest => a :: rest

/-- NewBroker: apply the option functions to the defaults and build the initial
broker state (Go zero values: not running, no producers, no subscriptions). -/
def newBroker (optfns : List (Options → Options)) : Broker :=
  let options := applyOptions defaultOptions optfns
  { nsqdTCPAddrs := resolveAddrs options.addrs
    lookupdHTTPAddrs := []
    opts := options
    config := newConfig
    running := false
    p := []
    c := [] }

/-- Default number of concurrent handlers (DefaultConcurrentHandlers). -/
def DefaultConcurrentHandlers : Int := 1

/-- Resolution of concurrency and max-in-flight from the subscribe context: both
default to DefaultConcurrentHandlers; a concurrent-handlers value sets both; a
max-in-flight value then overrides max-in-flight only. -/
def resolveConcurrency (ctx : Option SubCtx) : Int × Int :=
  match ctx with
  | none => (DefaultConcurrentHandlers, DefaultConcurrentHandlers)
  | some c =>
    let pair :=
      match c.concurrentHandlers with
      | some v => (v, v)
      | none => (DefaultConcurrentHandlers, DefaultConcurrentHandlers)
    match c.maxInFlight with
    | some v => (pair.1, v)
    | none => pair

/-- Channel resolution: the caller-supplied queue name, or a freshly generated
identifier with the ephemeral suffix; returns the channel and the next uuid
counter. -/
def resolveChannel (env : Env) (ctr : Nat) (queue : String) : String × Nat :=
  if queue.length = 0 then (env.uuid ctr ++ "#ephemeral", ctr + 1) else (queue, ctr)

/-- Resolution of the publish context values: the completion channel if present,
and the delay if present (zero otherwise); both zero-valued when no context. -/
def resolvePublishContext (ctx : Option PubCtx) : Option Nat × Int :=
  match ctx with
  | none => (none, 0)
  | some c => (c.asyncChan, c.deferredDelay.getD 0)

/-- Default publish options (empty struct before option functions run). -/
def defaultPublishOptions : PublishOptions := { context := none }

/-- Default subscribe options (AutoAck true before option functions run). -/
def defaultSubscribeOptions : SubscribeOptions :=
  { autoAck := true, queue := "", context := none }

/-- The dispatch shim built by Subscribe: disable auto-response when not
auto-acking, unmarshal the body (a decode failure is returned to the client and
the handler is not invoked), otherwise invoke the handler with a publication
wrapping the decoded envelope and the raw message, propagating its return value. -/
def mkShim (codec : Codec) (options : SubscribeOptions) (topic : String)
    (handler : Publication → Option Err) : HandlerFunc :=
  fun nm =>
    let nm1 := if !options.autoAck then { nm with autoResponseDisabled := true } else nm
    match codec.unmarshal nm1.body with
    | .error e => { msg := nm1, invoked := none, ret := some e }
    | .ok m =>
      let pub : Publication := { topic := topic, m := m, nm := nm1 }
      { msg := nm1, invoked := some pub, ret := handler pub }

/-- Subscribe: resolve options, concurrency, max-in-flight and channel, create a
consumer with a per-subscription copy of the configuration, attach the shim,
connect to lookupds (preferred) or nsqds, and append the subscription record.
Fails without touching state when consumer creation or connection fails. -/
def Subscribe (env : Env) (st : Broker) (ctr : Nat) (topic : String)
    (handler : Publication → Option Err)
    (optfns : List (SubscribeOptions → SubscribeOptions)) :
    Except Err Subscriber × Broker × Nat :=
  let options := applyOptions defaultSubscribeOptions optfns
  let rc := resolveConcurrency options.context
  let channel := (resolveChannel env ctr options.queue).1
  let ctr1 := (resolveChannel env ctr options.queue).2
  let config : Config := { st.config with maxInFlight := rc.2 }
  match env.newConsumerErr topic channel with
  | some e => (.error e, st, ctr1)
  | none =>
    let h := mkShim st.opts.codec options topic handler
    let cm : Consumer :=
      { topic := topic, channel := channel, config := config
        handlers := [(h, rc.1)], connectedTo := [], viaLookupd := false, stopped := false }
    let connectRes : Except Err Consumer :=
      if 0 < st.lookupdHTTPAddrs.length then
        match env.lookupdConnectErr topic channel with
        | some e => .error e
        | none => .ok { cm with connectedTo := st.lookupdHTTPAddrs, viaLookupd := true }
      else
        match env.nsqdConnectErr topic channel with
        | some e => .error e
        | none => .ok { cm with connectedTo := st.nsqdTCPAddrs }
    match connectRes with
    | .error e => (.error e, st, ctr1)
    | .ok cm1 =>
      let sub : Subscriber := { topic := topic, opts := options, c := cm1, h := h, n := rc.1 }
      (.ok sub, { st with c := st.c ++ [sub] }, ctr1)

/-- The subscription record built by a fully successful Subscribe call, spelled
out as a function of the inputs: resolved options, concurrency and max-in-flight
from the context, resolved channel, per-subscription configuration copy, the
shim attached at the resolved concurrency, and the connection target chosen by
the configured lookupd addresses. -/
def subscribeResult (env : Env) (st : Broker) (ctr : Nat) (topic : String)
    (handler : Publication → Option Err)
    (optfns : List (SubscribeOptions → SubscribeOptions)) : Subscriber :=
  let options := applyOptions defaultSubscribeOptions optfns
  let rc := resolveConcurrency options.context
  let channel := (resolveChannel env ctr options.queue).1
  let h := mkShim st.opts.codec options topic handler
  { topic := topic
    opts := options
    c :=
      { topic := topic
        channel := channel
        config := { st.config with maxInFlight := rc.2 }
        handlers := [(h, rc.1)]
        connectedTo :=
          if 0 < st.lookupdHTTPAddrs.length then st.lookupdHTTPAddrs else st.nsqdTCPAddrs
        viaLookupd := if 0 < st.lookupdHTTPAddrs.length then true else false
        stopped := false }
    h := h
    n := rc.1 }

/-- Producer creation loop of Connect: for each address create a producer and
ping it, aborting on the first failure; also returns the trace of external calls. -/
def createProducers (env : Env) (config : Config) :
    List String → Except Err (List Producer) × List ExtCall
  | [] => (.ok [], [])
  | addr :: rest =>
    match env.newProducerErr addr with
    | some e => (.error e, [ExtCall.newProducer addr])
    | none =>
      match env.pingErr addr with
      | some e => (.error e, [ExtCall.newProducer addr, ExtCall.ping addr])
      | none =>
        match createProducers env config rest with
        | (.error e, t) => (.error e, ExtCall.newProducer addr :: ExtCall.ping addr :: t)
        | (.ok ps, t) =>
          (.ok ({ addr := addr, config := config } :: ps),
            ExtCall.newProducer addr :: ExtCall.ping addr :: t)

/-- Consumer re-attachment loop of Connect: for each subscription record resolve
the channel, create a consumer, attach the recorded shim with the recorded
concurrency, store it in the record (in-place mutation, kept even when a later
step fails), then connect it to lookupds (error ignored, as in the source) or to
nsqds (error aborts).  Returns the next uuid counter, the updated records, the
aborting error if any, and the trace of external calls. -/
def connectConsumers (env : Env) (cfg : Config) (lookupds nsqds : List String) :
    Nat → List Subscriber → Nat × List Subscriber × Option Err × List ExtCall
  | ctr, [] => (ctr, [], none, [])
  | ctr, s :: rest =>
    let channel := (resolveChannel env ctr s.opts.queue).1
    let ctr1 := (resolveChannel env ctr s.opts.queue).2
    match env.newConsumerErr s.topic channel with
    | some e => (ctr1, s :: rest, some e, [ExtCall.newConsumer s.topic channel])
    | none =>
      let cm : Consumer :=
        { topic := s.topic, channel := channel, config := cfg
          handlers := [(s.h, s.n)], connectedTo := [], viaLookupd := false, stopped := false }
      if 0 < lookupds.length then
        let cm1 :=
          match env.lookupdConnectErr s.topic channel with
          | some _ => cm
          | none => { cm with connectedTo := lookupds, viaLookupd := true }
        match connectConsumers env cfg lookupds nsqds ctr1 rest with
        | (ctr2, rest1, e, t) =>
          (ctr2, { s with c := cm1 } :: rest1, e,
            ExtCall.newConsumer s.topic channel :: ExtCall.addHandlers s.topic channel s.n ::
              ExtCall.connectLookupds s.topic lookupds :: t)
      else
        match env.nsqdConnectErr s.topic channel with
        | some e =>
          (ctr1, { s with c := cm } :: rest, some e,
            [ExtCall.newConsumer s.topic channel, ExtCall.addHandlers s.topic channel s.n,
              ExtCall.connectNSQDs s.topic nsqds])
        | none =>
          match connectConsumers env cfg lookupds nsqds ctr1 rest with
          | (ctr2, rest1, e, t) =>
            (ctr2, { s with c := { cm with connectedTo := nsqds } } :: rest1, e,
              ExtCall.newConsumer s.topic channel :: ExtCall.addHandlers s.topic channel s.n ::
                ExtCall.connectNSQDs s.topic nsqds :: t)

/-- Connect: a no-op returning success when already running; otherwise create and
ping producers for every configured address (abort on failure, retaining no
producers), re-attach every subscription record, and on full success store the
producer list and set running. -/
def Connect (env : Env) (ctr : Nat) (st : Broker) :
    Except Err Unit × Broker × Nat × List ExtCall :=
  if st.running then (.ok (), st, ctr, [])
  else
    match createProducers env st.config st.nsqdTCPAddrs with
    | (.error e, t) => (.error e, st, ctr, t)
    | (.ok producers, t1) =>
      match connectConsumers env st.config st.lookupdHTTPAddrs st.nsqdTCPAddrs ctr st.c with
      | (ctr1, c1, some e, t2) => (.error e, { st with c := c1 }, ctr1, t1 ++ t2)
      | (ctr1, c1, none, t2) =>
        (.ok (), { st with c := c1, p := producers, running := true }, ctr1, t1 ++ t2)

/-- Stopping and detaching one subscription record on Disconnect: stop the
consumer and disconnect it from every lookupd address (when lookupds are
configured) or from every nsqd address. -/
def disconnectConsumer (lookupds nsqds : List String) (s : Subscriber) : Subscriber :=
  let cc := { s.c with stopped := true }
  let cc1 :=
    if 0 < lookupds.length then
      { cc with connectedTo := cc.connectedTo.filter (fun a => !(lookupds.contains a)) }
    else
      { cc with connectedTo := cc.connectedTo.filter (fun a => !(nsqds.contains a)) }
  { s with c := cc1 }

/-- Disconnect: a no-op returning success when not running; otherwise stop every
producer, stop and detach every subscription record (records are retained), clear
the producer list and clear running. -/
def Disconnect (st : Broker) : Except Err Unit × Broker :=
  if !st.running then (.ok (), st)
  else
    (.ok (),
      { st with
        p := []
        running := false
        c := st.c.map (disconnectConsumer st.lookupdHTTPAddrs st.nsqdTCPAddrs) })

/-- The four-way dispatch of Publish: the presence of a completion channel
selects the async operations, a positive delay selects the deferred operations. -/
def publishDecision (topic : String) (b : List Nat) (dc : Option Nat) (delay : Int) : SendOp :=
  match dc with
  | some ch =>
    if 0 < delay then SendOp.deferredPublishAsync topic delay b ch
    else SendOp.publishAsync topic b ch
  | none =>
    if 0 < delay then SendOp.deferredPublish topic delay b
    else SendOp.publish topic b

/-- Publish: index a random producer (a Go runtime panic when the pool is empty,
since rand.Intn rejects a zero bound), resolve options, marshal the envelope
(returning a codec failure unchanged), and dispatch to exactly one of the four
send operations chosen by the presence of a completion channel and the
positivity of the delay. -/
def Publish (env : Env) (i : Nat) (st : Broker) (topic : String) (message : Message)
    (optfns : List (PublishOptions → PublishOptions)) : PubResult :=
  match st.p with
  | [] => .panicked "runtime error: invalid argument to Intn"
  | q :: qs =>
    let chosen := (q :: qs).get ⟨i % (qs.length + 1), Nat.mod_lt _ (Nat.succ_pos _)⟩
    let options := applyOptions defaultPublishOptions optfns
    let rc := resolvePublishContext options.context
    match st.opts.codec.marshal message with
    | .error e => .codecError e
    | .ok b =>
      let op := publishDecision topic b rc.1 rc.2
      .sent chosen op (env.sendErr op)

/-- Stopping the consumer of the record at one position (Unsubscribe stops the
consumer handle shared with the record; the record itself is not removed). -/
def stopAt : Nat → List Subscriber → List Subscriber
  | _, [] => []
  | 0, s :: rest => { s with c := { s.c with stopped := true } } :: rest
  | i + 1, s :: rest => s :: stopAt i rest

/-- Unsubscribe on the record at position i: stop its consumer, return success;
the record stays in the pool. -/
def Unsubscribe (st : Broker) (i : Nat) : Except Err Unit × Broker :=
  (.ok (), { st with c := stopAt i st.c })

/-- One public operation of the broker, with the external inputs it consumes. -/
inductive Op where
  | connect (env : Env) (ctr : Nat)
  | disconnect
  | publish (env : Env) (i : Nat) (topic : String) (m : Message)
      (optfns : List (PublishOptions → PublishOptions))
  | subscribe (env : Env) (ctr : Nat) (topic : String) (handler : Publication → Option Err)
      (optfns : List (SubscribeOptions → SubscribeOptions))
  | unsubscribe (i : Nat)

/-- The broker state after one public operation (Publish does not mutate state). -/
def applyOp (st : Broker) : Op → Broker
  | .connect env ctr => (Connect env ctr st).2.1
  | .disconnect => (Disconnect st).2
  | .publish _ _ _ _ _ => st
  | .subscribe env ctr topic handler optfns => (Subscribe env st ctr topic handler optfns).2.1
  | .unsubscribe i => (Unsubscribe st i).2

/-- The central state invariant: the broker is running exactly when the producer
pool is non-empty. -/
def RunningInv (st : Broker) : Prop := st.running = true ↔ st.p ≠ []

/-- Record skeleton preserved by Connect and Disconnect: everything of a
subscription record except the live consumer handle. -/
def sameRecord (a b : Subscriber) : Prop :=
  a.topic = b.topic ∧ a.opts = b.opts ∧ a.h = b.h ∧ a.n = b.n

/-- The relation between a record re-attached by a successful Connect and the
record before that Connect: the skeleton is unchanged and the record carries a
fresh consumer for the same topic, the same shim at the recorded concurrency,
connected to the lookupd addresses (preferred) or the nsqd addresses, with the
caller-supplied channel name when one was given. -/
def reestablished (cfg : Config) (lookupds nsqds : List String) (a b : Subscriber) : Prop :=
  sameRecord a b ∧
  a.c.topic = b.topic ∧
  a.c.handlers = [(b.h, b.n)] ∧
  a.c.stopped = false ∧
  a.c.config = cfg ∧
  a.c.connectedTo = (if 0 < lookupds.length then lookupds else nsqds) ∧
  (b.opts.queue.length ≠ 0 → a.c.channel = b.opts.queue)

/-- A caller handler that always reports success, used in concrete scenarios. -/
def handler0 : Publication → Option Err := fun _ => none

/-- Environment in which every external call succeeds. -/
def envOK : Env :=
  { newProducerErr := fun _ => none
    pingErr := fun _ => none
    newConsumerErr := fun _ _ => none
    nsqdConnectErr := fun _ _ => none
    lookupdConnectErr := fun _ _ => none
    uuid := fun n => "uuid-" ++ toString n
    sendErr := fun _ => none }

/-- Environment in which connecting a consumer to the nsqd addresses fails. -/
def envFail : Env := { envOK with nsqdConnectErr := fun _ _ => some "connection refused" }

/-- Freshly constructed broker with no options. -/
def st0 : Broker := newBroker []

/-- Broker after one successful Subscribe on the fresh broker (still not running). -/
def stSub : Broker := (Subscribe envOK st0 0 "orders" handler0 []).2.1

/-- Broker after a successful Connect following the Subscribe (running, one
producer, one re-attached subscription record). -/
def stRun : Broker := (Connect envOK 1 stSub).2.1

/-- A concrete envelope used in scenarios. -/
def msg0 : Message := { header := [("id", "1")], body := [1, 2, 3] }

/-- Producer creation returns one producer per configured address when it
succeeds. -/
theorem createProducers_ok_length (env : Env) (cfg : Config) :
    ∀ addrs ps t, createProducers env cfg addrs = (.ok ps, t) → ps.length = addrs.length := by
  intro addrs
  induction addrs with
  | nil =>
    intro ps t h
    simp only [createProducers, Prod.mk.injEq] at h
    obtain ⟨h1, -⟩ := h
    injection h1 with h1
    simp [← h1]
  | cons a rest ih =>
    intro ps t h
    simp only [createProducers] at h
    cases hnp : env.newProducerErr a with
    | some e => rw [hnp] at h; simp at h
    | none =>
      rw [hnp] at h
      cases hpg : env.pingErr a with
      | some e => rw [hpg] at h; simp at h
      | none =>
        rw [hpg] at h
        rcases hrec : createProducers env cfg rest with ⟨r, t1⟩
        rw [hrec] at h
        cases r with
        | error e => simp at h
        | ok ps1 =>
          simp only [Prod.mk.injEq, Except.ok.injEq] at h
          rw [← h.1]
          simp [ih ps1 t1 (by rw [hrec])]

/-- Case analysis of Connect: a running broker short-circuits; otherwise a
producer failure aborts with the state untouched, a consumer failure aborts
keeping the partially re-attached records, and full success installs the
producers and sets the flag. -/
theorem connect_spec (env : Env) (ctr : Nat) (st : Broker) :
    (st.running = true ∧ Connect env ctr st = (.ok (), st, ctr, [])) ∨
    (st.running = false ∧ ∃ e t,
      createProducers env st.config st.nsqdTCPAddrs = (.error e, t) ∧
      Connect env ctr st = (.error e, st, ctr, t)) ∨
    (st.running = false ∧ ∃ ps ctr1 c1 e t1 t2,
      createProducers env st.config st.nsqdTCPAddrs = (.ok ps, t1) ∧
      connectConsumers env st.config st.lookupdHTTPAddrs st.nsqdTCPAddrs ctr st.c =
        (ctr1, c1, some e, t2) ∧
      Connect env ctr st = (.error e, { st with c := c1 }, ctr1, t1 ++ t2)) ∨
    (st.running = false ∧ ∃ ps ctr1 c1 t1 t2,
      createProducers env st.config st.nsqdTCPAddrs = (.ok ps, t1) ∧
      connectConsumers env st.config st.lookupdHTTPAddrs st.nsqdTCPAddrs ctr st.c =
        (ctr1, c1, none, t2) ∧
      ps.length = st.nsqdTCPAddrs.length ∧
      Connect env ctr st = (.ok (), { st with c := c1, p := ps, running := true }, ctr1, t1 ++ t2)) := by
  unfold Connect
  cases hr : st.running with
  | true =>
    left
    exact ⟨rfl, by simp⟩
  | false =>
    simp only [Bool.false_eq_true, reduceIte]
    rcases hcp : createProducers env st.config st.nsqdTCPAddrs with ⟨r, t⟩
    cases r with
    | error e =>
      right; left
      exact ⟨by trivial, e, t, rfl, rfl⟩
    | ok ps =>
      rcases hcc : connectConsumers env st.config st.lookupdHTTPAddrs st.nsqdTCPAddrs ctr st.c
        with ⟨ctr1, c1, e?, t2⟩
      cases e? with
      | some e =>
        right; right; left
        exact ⟨by trivial, ps, ctr1, c1, e, t, t2, rfl, rfl, rfl⟩
      | none =>
        right; right; right
        exact ⟨by trivial, ps, ctr1, c1, t, t2, rfl, rfl,
          createProducers_ok_length env st.config st.nsqdTCPAddrs ps t hcp, rfl⟩

/-- A Connect call that returns success leaves the broker running: either it was
already running and the state is unchanged, or the success branch set the flag. -/
theorem connect_ok_running (env : Env) (ctr : Nat) (st : Broker)
    (h : (Connect env ctr st).1 = .ok ()) : (Connect env ctr st).2.1.running = true := by
  rcases connect_spec env ctr st with ⟨hr, hc⟩ | ⟨hr, e, t, hcp, hc⟩ |
    ⟨hr, ps, ctr1, c1, e, t1, t2, hcp, hcc, hc⟩ | ⟨hr, ps, ctr1, c1, t1, t2, hcp, hcc, hlen, hc⟩
  · rw [hc]; exact hr
  · rw [hc] at h; exact Except.noConfusion h
  · rw [hc] at h; exact Except.noConfusion h
  · rw [hc]

/-- Claim C1: with an empty producer pool (here: a freshly constructed broker on
which Connect was never called), Publish does not return an error; it reaches
rand.Intn with a zero bound and panics at runtime, diverging from the documented
deterministic error return. -/
theorem publish_on_empty_pool_panics :
    st0.p = [] ∧ st0.running = false ∧
    Publish envOK 0 st0 "orders" msg0 [] =
      .panicked "runtime error: invalid argument to Intn" :=
  ⟨rfl, rfl, rfl⟩

/-- Claim C5: Connect is idempotent: on a running broker it mutates nothing,
performs no external connection work (empty call trace) and returns success; and
after any successful Connect, a second Connect returns success with no work and
no state change. -/
theorem connect_idempotent :
    (∀ env ctr st, st.running = true → Connect env ctr st = (.ok (), st, ctr, [])) ∧
    (∀ env1 env2 ctr1 ctr2 st, (Connect env1 ctr1 st).1 = .ok () →
      Connect env2 ctr2 (Connect env1 ctr1 st).2.1 =
        (.ok (), (Connect env1 ctr1 st).2.1, ctr2, [])) := by
  have base : ∀ env ctr st, st.running = true → Connect env ctr st = (.ok (), st, ctr, []) := by
    intro env ctr st h
    unfold Connect
    simp [h]
  refine ⟨base, ?_⟩
  intro env1 env2 ctr1 ctr2 st h
  exact base env2 ctr2 _ (connect_ok_running env1 ctr1 st h)

/-- Witness for claim C5 at a concrete running broker. -/
theorem connect_idempotent_witness :
    stRun.running = true ∧ Connect envOK 7 stRun = (.ok (), stRun, 7, []) :=
  ⟨rfl, connect_idempotent.1 envOK 7 stRun rfl⟩

/-- Claim C4: from a non-running broker with a non-empty configured address list,
a successful Connect makes the broker running with one producer handle per
configured address, and a subsequent Disconnect clears the flag and empties the
pool. -/
theorem connect_then_disconnect_counts (env : Env) (ctr : Nat) (st : Broker)
    (_hne : st.nsqdTCPAddrs ≠ []) (h0 : st.running = false)
    (hok : (Connect env ctr st).1 = .ok ()) :
    (Connect env ctr st).2.1.running = true ∧
    (Connect env ctr st).2.1.p.length = st.nsqdTCPAddrs.length ∧
    (Disconnect (Connect env ctr st).2.1).2.running = false ∧
    (Disconnect (Connect env ctr st).2.1).2.p.length = 0 := by
  rcases connect_spec env ctr st with ⟨hr, hc⟩ | ⟨hr, e, t, hcp, hc⟩ |
    ⟨hr, ps, ctr1, c1, e, t1, t2, hcp, hcc, hc⟩ | ⟨hr, ps, ctr1, c1, t1, t2, hcp, hcc, hlen, hc⟩
  · rw [h0] at hr; exact Bool.noConfusion hr
  · rw [hc] at hok; exact Except.noConfusion hok
  · rw [hc] at hok; exact Except.noConfusion hok
  · rw [hc]
    exact ⟨rfl, hlen, by simp [Disconnect], by simp [Disconnect]⟩

/-- The record skeleton relation is reflexive. -/
theorem sameRecord_refl (s : Subscriber) : sameRecord s s := ⟨rfl, rfl, rfl, rfl⟩

/-- Every list of records is skeleton-related to itself. -/
theorem forall₂_sameRecord_refl : ∀ l : List Subscriber, List.Forall₂ sameRecord l l
  | [] => List.Forall₂.nil
  | s :: rest => List.Forall₂.cons (sameRecord_refl s) (forall₂_sameRecord_refl rest)

/-- The consumer re-attachment loop only ever overwrites the live consumer handle
of a record: topic, options, shim and concurrency survive, whether or not the
loop aborts. -/
theorem connectConsumers_sameRecord (env : Env) (cfg : Config) (lookupds nsqds : List String) :
    ∀ subs ctr, List.Forall₂ sameRecord
      (connectConsumers env cfg lookupds nsqds ctr subs).2.1 subs := by
  intro subs
  induction subs with
  | nil => intro ctr; exact List.Forall₂.nil
  | cons s rest ih =>
    intro ctr
    simp only [connectConsumers]
    cases hnc : env.newConsumerErr s.topic (resolveChannel env ctr s.opts.queue).1 with
    | some e =>
      exact List.Forall₂.cons (sameRecord_refl s) (forall₂_sameRecord_refl rest)
    | none =>
      by_cases hlk : 0 < lookupds.length
      · rw [if_pos hlk]
        exact List.Forall₂.cons (sameRecord_refl s) (ih _)
      · rw [if_neg hlk]
        cases hnd : env.nsqdConnectErr s.topic (resolveChannel env ctr s.opts.queue).1 with
        | some e =>
          exact List.Forall₂.cons (sameRecord_refl s) (forall₂_sameRecord_refl rest)
        | none =>
          exact List.Forall₂.cons (sameRecord_refl s) (ih _)

/-- Claim C2 (amended): when Connect fails from a non-running state, the failure
is returned, the broker stays not running, the producer pool and the configured
addresses are untouched, and every subscription record keeps its topic, options,
shim, and concurrency; only the live consumer handles of records processed
before the failure may have been replaced. -/
theorem connect_failure_keeps_producers_running_and_record_skeletons (env : Env) (ctr : Nat)
    (st : Broker) (e : Err) (h0 : st.running = false)
    (hf : (Connect env ctr st).1 = .error e) :
    (Connect env ctr st).2.1.running = false ∧
    (Connect env ctr st).2.1.p = st.p ∧
    (Connect env ctr st).2.1.nsqdTCPAddrs = st.nsqdTCPAddrs ∧
    (Connect env ctr st).2.1.lookupdHTTPAddrs = st.lookupdHTTPAddrs ∧
    List.Forall₂ sameRecord (Connect env ctr st).2.1.c st.c := by
  rcases connect_spec env ctr st with ⟨hr, hc⟩ | ⟨hr, e1, t, hcp, hc⟩ |
    ⟨hr, ps, ctr1, c1, e1, t1, t2, hcp, hcc, hc⟩ | ⟨hr, ps, ctr1, c1, t1, t2, hcp, hcc, hlen, hc⟩
  · rw [h0] at hr; exact Bool.noConfusion hr
  · rw [hc]
    exact ⟨h0, rfl, rfl, rfl, forall₂_sameRecord_refl st.c⟩
  · rw [hc]
    refine ⟨h0, rfl, rfl, rfl, ?_⟩
    have h2 := connectConsumers_sameRecord env st.config st.lookupdHTTPAddrs st.nsqdTCPAddrs st.c ctr
    rw [hcc] at h2
    exact h2
  · rw [hc] at hf; exact Except.noConfusion hf

/-- Counterexample to claim C2 as stated: a broker with one subscription (made
with an ephemeral channel while not running), on a Connect attempt whose
consumer attachment fails, returns the failure with running still false, yet its
subscription record has been mutated: the freshly created, unconnected consumer
replaced the connected one, so the state is not exactly as before the call. -/
theorem connect_failure_mutates_subscription_records :
    stSub.running = false ∧
    (Connect envFail 1 stSub).1 = .error "connection refused" ∧
    (Connect envFail 1 stSub).2.1.c.map (fun s => s.c.connectedTo) ≠
      stSub.c.map (fun s => s.c.connectedTo) := by
  refine ⟨rfl, rfl, ?_⟩
  decide

/-- Witness for the amended claim C2 at the same concrete failing Connect. -/
theorem connect_failure_keeps_state_witness :
    stSub.running = false ∧ (Connect envFail 1 stSub).1 = .error "connection refused" ∧
    ((Connect envFail 1 stSub).2.1.running = false ∧
     (Connect envFail 1 stSub).2.1.p = stSub.p ∧
     (Connect envFail 1 stSub).2.1.nsqdTCPAddrs = stSub.nsqdTCPAddrs ∧
     (Connect envFail 1 stSub).2.1.lookupdHTTPAddrs = stSub.lookupdHTTPAddrs ∧
     List.Forall₂ sameRecord (Connect envFail 1 stSub).2.1.c stSub.c) :=
  ⟨rfl, rfl,
    connect_failure_keeps_producers_running_and_record_skeletons envFail 1 stSub
      "connection refused" rfl rfl⟩

/-- Witness for claim C4 on a freshly constructed broker in a fully successful
environment. -/
theorem connect_then_disconnect_counts_witness :
    st0.nsqdTCPAddrs ≠ [] ∧ st0.running = false ∧ (Connect envOK 0 st0).1 = .ok () ∧
    ((Connect envOK 0 st0).2.1.running = true ∧
     (Connect envOK 0 st0).2.1.p.length = st0.nsqdTCPAddrs.length ∧
     (Disconnect (Connect envOK 0 st0).2.1).2.running = false ∧
     (Disconnect (Connect envOK 0 st0).2.1).2.p.length = 0) :=
  ⟨by decide, rfl, rfl, connect_then_disconnect_counts envOK 0 st0 (by decide) rfl rfl⟩

/-- Subscribe never reads or writes the running flag, the producer pool, or the
configured addresses: whatever branch it takes, those fields are returned
unchanged. -/
theorem subscribe_preserves_core (env : Env) (st : Broker) (ctr : Nat) (topic : String)
    (handler : Publication → Option Err)
    (optfns : List (SubscribeOptions → SubscribeOptions)) :
    (Subscribe env st ctr topic handler optfns).2.1.running = st.running ∧
    (Subscribe env st ctr topic handler optfns).2.1.p = st.p ∧
    (Subscribe env st ctr topic handler optfns).2.1.nsqdTCPAddrs = st.nsqdTCPAddrs ∧
    (Subscribe env st ctr topic handler optfns).2.1.config = st.config := by
  simp only [Subscribe]
  repeat' split
  all_goals exact ⟨rfl, rfl, rfl, rfl⟩

/-- Claim C3: the invariant running iff non-empty producer pool holds for every
freshly constructed broker and is preserved by every public operation, given the
constructor-guaranteed auxiliary fact that the configured address list is
non-empty (itself also preserved by every operation). -/
theorem running_iff_producers_invariant :
    (∀ optfns, RunningInv (newBroker optfns) ∧ (newBroker optfns).nsqdTCPAddrs ≠ []) ∧
    (∀ st op, RunningInv st → st.nsqdTCPAddrs ≠ [] →
      RunningInv (applyOp st op) ∧ (applyOp st op).nsqdTCPAddrs ≠ []) := by
  constructor
  · intro optfns
    constructor
    · simp [RunningInv, newBroker]
    · show resolveAddrs (applyOptions defaultOptions optfns).addrs ≠ []
      unfold resolveAddrs
      split <;> simp
  · intro st op hinv hne
    cases op with
    | connect env ctr =>
      simp only [applyOp]
      rcases connect_spec env ctr st with ⟨hr, hc⟩ | ⟨hr, e, t, hcp, hc⟩ |
        ⟨hr, ps, ctr1, c1, e, t1, t2, hcp, hcc, hc⟩ |
        ⟨hr, ps, ctr1, c1, t1, t2, hcp, hcc, hlen, hc⟩
      · rw [hc]; exact ⟨hinv, hne⟩
      · rw [hc]; exact ⟨hinv, hne⟩
      · rw [hc]; exact ⟨hinv, hne⟩
      · rw [hc]
        refine ⟨?_, hne⟩
        have hps : ps ≠ [] := by
          intro hnil
          rw [hnil] at hlen
          exact hne (List.length_eq_zero.mp hlen.symm)
        simp [RunningInv, hps]
    | disconnect =>
      simp only [applyOp]
      unfold Disconnect
      cases hr : st.running with
      | false => exact ⟨hinv, hne⟩
      | true =>
        refine ⟨?_, hne⟩
        simp [RunningInv]
    | publish env i topic m optfns => exact ⟨hinv, hne⟩
    | subscribe env ctr topic handler optfns =>
      simp only [applyOp]
      have hp := subscribe_preserves_core env st ctr topic handler optfns
      constructor
      · unfold RunningInv
        rw [hp.1, hp.2.1]
        exact hinv
      · rw [hp.2.2.1]
        exact hne
    | unsubscribe i => exact ⟨hinv, hne⟩

/-- Witness for claim C3 on the fresh broker and a concrete Disconnect step. -/
theorem running_iff_producers_invariant_witness :
    RunningInv st0 ∧ st0.nsqdTCPAddrs ≠ [] ∧ RunningInv (applyOp st0 Op.disconnect) :=
  ⟨(running_iff_producers_invariant.1 []).1, (running_iff_producers_invariant.1 []).2,
    (running_iff_producers_invariant.2 st0 Op.disconnect
      (running_iff_producers_invariant.1 []).1 (running_iff_producers_invariant.1 []).2).1⟩

/-- Case analysis of Disconnect: a non-running broker short-circuits; otherwise
producers are stopped and dropped, records are stopped and detached, and the
flag is cleared. -/
theorem disconnect_spec (st : Broker) :
    (st.running = false ∧ Disconnect st = (.ok (), st)) ∨
    (st.running = true ∧ Disconnect st = (.ok (),
      { st with
          p := []
          running := false
          c := st.c.map (disconnectConsumer st.lookupdHTTPAddrs st.nsqdTCPAddrs) })) := by
  unfold Disconnect
  cases hr : st.running with
  | false => left; exact ⟨rfl, rfl⟩
  | true => right; exact ⟨rfl, rfl⟩

/-- Stopping and detaching the records on Disconnect keeps every record skeleton
and marks every consumer stopped. -/
theorem forall₂_map_disconnect (lookupds nsqds : List String) :
    ∀ l : List Subscriber,
      List.Forall₂ (fun a b => sameRecord a b ∧ a.c.stopped = true)
        (l.map (disconnectConsumer lookupds nsqds)) l := by
  intro l
  induction l with
  | nil => exact List.Forall₂.nil
  | cons s rest ih =>
    refine List.Forall₂.cons ⟨⟨rfl, rfl, rfl, rfl⟩, ?_⟩ ih
    simp only [disconnectConsumer]
    split <;> rfl

/-- Composition of two pointwise list relations through a middle list. -/
theorem forall₂_compose {α β γ : Type} {r : α → β → Prop} {s : β → γ → Prop}
    {t : α → γ → Prop} (h : ∀ a b c, r a b → s b c → t a c) :
    ∀ {l1 : List α} {l2 : List β} {l3 : List γ},
      List.Forall₂ r l1 l2 → List.Forall₂ s l2 l3 → List.Forall₂ t l1 l3 := by
  intro l1 l2 l3 h12
  induction h12 generalizing l3 with
  | nil =>
    intro h23
    cases h23
    exact List.Forall₂.nil
  | cons hr hrest ih =>
    intro h23
    cases h23 with
    | cons hs hrest2 => exact List.Forall₂.cons (h _ _ _ hr hs) (ih hrest2)

/-- The re-establishment relation transfers along an unchanged record skeleton. -/
theorem reestablished_transfer (cfg : Config) (lookupds nsqds : List String)
    (a b c : Subscriber) (h1 : reestablished cfg lookupds nsqds a b)
    (h2 : sameRecord b c) : reestablished cfg lookupds nsqds a c := by
  obtain ⟨⟨ht, ho, hh, hn⟩, hct, hch, hcs, hcc, hconn, hchan⟩ := h1
  obtain ⟨ht2, ho2, hh2, hn2⟩ := h2
  refine ⟨⟨ht.trans ht2, ho.trans ho2, hh.trans hh2, hn.trans hn2⟩,
    hct.trans ht2, ?_, hcs, hcc, hconn, ?_⟩
  · rw [hch, hh2, hn2]
  · rw [← ho2]
    exact hchan

/-- When the re-attachment loop of Connect completes without error (lookupd
attachment assumed healthy), every record ends up re-established: same skeleton,
fresh live consumer with the recorded shim and concurrency, connected to the
lookupd addresses (preferred) or the nsqd addresses. -/
theorem connectConsumers_ok_reestablishes (env : Env) (cfg : Config)
    (lookupds nsqds : List String)
    (hl : ∀ t ch, env.lookupdConnectErr t ch = none) :
    ∀ subs ctr ctr1 subs1 tr,
      connectConsumers env cfg lookupds nsqds ctr subs = (ctr1, subs1, none, tr) →
      List.Forall₂ (reestablished cfg lookupds nsqds) subs1 subs := by
  intro subs
  induction subs with
  | nil =>
    intro ctr ctr1 subs1 tr h
    simp only [connectConsumers, Prod.mk.injEq] at h
    rw [← h.2.1]
    exact List.Forall₂.nil
  | cons s rest ih =>
    intro ctr ctr1 subs1 tr h
    simp only [connectConsumers] at h
    cases hnc : env.newConsumerErr s.topic (resolveChannel env ctr s.opts.queue).1 with
    | some e => rw [hnc] at h; simp at h
    | none =>
      rw [hnc] at h
      by_cases hlk : 0 < lookupds.length
      · rw [if_pos hlk, hl s.topic (resolveChannel env ctr s.opts.queue).1] at h
        rcases hrec : connectConsumers env cfg lookupds nsqds
            (resolveChannel env ctr s.opts.queue).2 rest with ⟨ctr2, rest1, e?, t3⟩
        rw [hrec] at h
        simp only [Prod.mk.injEq] at h
        obtain ⟨h1, h2, h3, h4⟩ := h
        rw [← h2]
        rw [h3] at hrec
        refine List.Forall₂.cons ?_ (ih _ _ _ _ hrec)
        refine ⟨⟨rfl, rfl, rfl, rfl⟩, rfl, rfl, rfl, rfl, ?_, ?_⟩
        · rw [if_pos hlk]
        · intro hq
          simp [resolveChannel, hq]
      · rw [if_neg hlk] at h
        cases hnd : env.nsqdConnectErr s.topic (resolveChannel env ctr s.opts.queue).1 with
        | some e => rw [hnd] at h; simp at h
        | none =>
          rw [hnd] at h
          rcases hrec : connectConsumers env cfg lookupds nsqds
              (resolveChannel env ctr s.opts.queue).2 rest with ⟨ctr2, rest1, e?, t3⟩
          rw [hrec] at h
          simp only [Prod.mk.injEq] at h
          obtain ⟨h1, h2, h3, h4⟩ := h
          rw [← h2]
          rw [h3] at hrec
          refine List.Forall₂.cons ?_ (ih _ _ _ _ hrec)
          refine ⟨⟨rfl, rfl, rfl, rfl⟩, rfl, rfl, rfl, rfl, ?_, ?_⟩
          · rw [if_neg hlk]
          · intro hq
            simp [resolveChannel, hq]

/-- A successful Connect from a non-running state re-establishes every
subscription record (lookupd attachment assumed healthy). -/
theorem connect_ok_reattaches (env : Env) (ctr : Nat) (st1 : Broker)
    (h0 : st1.running = false)
    (hl : ∀ t ch, env.lookupdConnectErr t ch = none)
    (hok : (Connect env ctr st1).1 = .ok ()) :
    List.Forall₂ (reestablished st1.config st1.lookupdHTTPAddrs st1.nsqdTCPAddrs)
      (Connect env ctr st1).2.1.c st1.c := by
  rcases connect_spec env ctr st1 with ⟨hr, hc⟩ | ⟨hr, e, t, hcp, hc⟩ |
    ⟨hr, ps, ctr1, c1, e, t1, t2, hcp, hcc, hc⟩ | ⟨hr, ps, ctr1, c1, t1, t2, hcp, hcc, hlen, hc⟩
  · rw [h0] at hr; exact Bool.noConfusion hr
  · rw [hc] at hok; exact Except.noConfusion hok
  · rw [hc] at hok; exact Except.noConfusion hok
  · rw [hc]
    exact connectConsumers_ok_reestablishes env st1.config st1.lookupdHTTPAddrs
      st1.nsqdTCPAddrs hl st1.c ctr ctr1 c1 t2 hcc

/-- Claim C6: on a running broker, Disconnect retains every subscription record,
stopping only its live consumer, and a subsequent successful Connect (lookupd
attachment healthy) re-establishes a live consumer for the same
topic, channel configuration, shim and concurrency of each record, without any
further Subscribe call. -/
theorem disconnect_retains_and_connect_reestablishes (st : Broker) (env2 : Env) (ctr : Nat)
    (hr : st.running = true) (hl : ∀ t ch, env2.lookupdConnectErr t ch = none) :
    List.Forall₂ (fun a b => sameRecord a b ∧ a.c.stopped = true) (Disconnect st).2.c st.c ∧
    ((Connect env2 ctr (Disconnect st).2).1 = .ok () →
      List.Forall₂ (reestablished st.config st.lookupdHTTPAddrs st.nsqdTCPAddrs)
        (Connect env2 ctr (Disconnect st).2).2.1.c st.c) := by
  rcases disconnect_spec st with ⟨hf, hd⟩ | ⟨-, hd⟩
  · rw [hf] at hr; exact Bool.noConfusion hr
  · constructor
    · rw [hd]
      exact forall₂_map_disconnect _ _ _
    · intro hok
      rw [hd] at hok ⊢
      have h1 := connect_ok_reattaches env2 ctr _ rfl hl hok
      refine forall₂_compose ?_ h1
        (forall₂_map_disconnect st.lookupdHTTPAddrs st.nsqdTCPAddrs st.c)
      intro a b c hab hbc
      exact reestablished_transfer _ _ _ a b c hab hbc.1

/-- Witness for claim C6 on the concrete running broker with one subscription. -/
theorem disconnect_retains_and_connect_reestablishes_witness :
    stRun.running = true ∧
    (List.Forall₂ (fun a b => sameRecord a b ∧ a.c.stopped = true)
        (Disconnect stRun).2.c stRun.c ∧
      ((Connect envOK 2 (Disconnect stRun).2).1 = .ok () →
        List.Forall₂ (reestablished stRun.config stRun.lookupdHTTPAddrs stRun.nsqdTCPAddrs)
          (Connect envOK 2 (Disconnect stRun).2).2.1.c stRun.c)) :=
  ⟨rfl, disconnect_retains_and_connect_reestablishes stRun envOK 2 rfl (fun _ _ => rfl)⟩

/-- A Subscribe call in an environment where consumer creation and attachment
succeed returns exactly the spelled-out subscription record, appends it to the
record list, and advances the uuid counter iff an ephemeral channel was
generated; no other state is touched. -/
theorem subscribe_ok_shape (env : Env) (st : Broker) (ctr : Nat) (topic : String)
    (handler : Publication → Option Err)
    (optfns : List (SubscribeOptions → SubscribeOptions))
    (h1 : ∀ t ch, env.newConsumerErr t ch = none)
    (h2 : ∀ t ch, env.nsqdConnectErr t ch = none)
    (h3 : ∀ t ch, env.lookupdConnectErr t ch = none) :
    Subscribe env st ctr topic handler optfns =
      (.ok (subscribeResult env st ctr topic handler optfns),
       { st with c := st.c ++ [subscribeResult env st ctr topic handler optfns] },
       (resolveChannel env ctr (applyOptions defaultSubscribeOptions optfns).queue).2) := by
  simp only [Subscribe, subscribeResult, h1, h2, h3]
  by_cases hlk : 0 < st.lookupdHTTPAddrs.length
  · simp [hlk]
  · simp [hlk]

/-- Claim C10: Subscribe requires no prior Connect: for every broker state, with
no condition on the running flag or the producer pool, it creates a consumer,
attaches the dispatch shim at the resolved concurrency, connects it to the
lookupd addresses (preferred) or the nsqd addresses, and appends the
subscription record; only the external consumer calls can make it fail, never a
not-connected check. -/
theorem subscribe_ignores_running_flag (env : Env) (st : Broker) (ctr : Nat) (topic : String)
    (handler : Publication → Option Err)
    (optfns : List (SubscribeOptions → SubscribeOptions))
    (h1 : ∀ t ch, env.newConsumerErr t ch = none)
    (h2 : ∀ t ch, env.nsqdConnectErr t ch = none)
    (h3 : ∀ t ch, env.lookupdConnectErr t ch = none) :
    ∃ sub ctr1,
      Subscribe env st ctr topic handler optfns = (.ok sub, { st with c := st.c ++ [sub] }, ctr1) ∧
      sub.c.handlers = [(sub.h, sub.n)] ∧
      sub.c.connectedTo =
        (if 0 < st.lookupdHTTPAddrs.length then st.lookupdHTTPAddrs else st.nsqdTCPAddrs) ∧
      sub.c.stopped = false :=
  ⟨subscribeResult env st ctr topic handler optfns, _,
    subscribe_ok_shape env st ctr topic handler optfns h1 h2 h3, rfl, rfl, rfl⟩

/-- Witness for claim C10 on the fresh broker, which is not running and has an
empty producer pool. -/
theorem subscribe_ignores_running_flag_witness :
    st0.running = false ∧ st0.p = [] ∧
    ∃ sub ctr1,
      Subscribe envOK st0 0 "orders" handler0 [] = (.ok sub, { st0 with c := st0.c ++ [sub] }, ctr1) ∧
      sub.c.handlers = [(sub.h, sub.n)] ∧
      sub.c.connectedTo =
        (if 0 < st0.lookupdHTTPAddrs.length then st0.lookupdHTTPAddrs else st0.nsqdTCPAddrs) ∧
      sub.c.stopped = false :=
  ⟨rfl, rfl, subscribe_ignores_running_flag envOK st0 0 "orders" handler0 []
    (fun _ _ => rfl) (fun _ _ => rfl) (fun _ _ => rfl)⟩

/-- Claim C8: the resolved concurrency defaults to 1 and max-in-flight equals
the resolved concurrency unless a max-in-flight option is supplied, in which
case that value is used; a successful Subscribe creates its consumer with a
per-subscription copy of the tuning configuration carrying the resolved
max-in-flight, leaving the shared broker configuration untouched. -/
theorem subscribe_concurrency_and_max_in_flight :
    (DefaultConcurrentHandlers = 1 ∧ resolveConcurrency none = (1, 1)) ∧
    (∀ ctx : SubCtx, ctx.maxInFlight = none →
      (resolveConcurrency (some ctx)).2 = (resolveConcurrency (some ctx)).1) ∧
    (∀ ctx : SubCtx, ∀ v, ctx.maxInFlight = some v → (resolveConcurrency (some ctx)).2 = v) ∧
    (∀ env st ctr topic handler optfns,
      (∀ t ch, Env.newConsumerErr env t ch = none) →
      (∀ t ch, Env.nsqdConnectErr env t ch = none) →
      (∀ t ch, Env.lookupdConnectErr env t ch = none) →
      ∃ sub ctr1,
        Subscribe env st ctr topic handler optfns =
          (.ok sub, { st with c := st.c ++ [sub] }, ctr1) ∧
        sub.n = (resolveConcurrency (applyOptions defaultSubscribeOptions optfns).context).1 ∧
        sub.c.config =
          { st.config with
            maxInFlight :=
              (resolveConcurrency (applyOptions defaultSubscribeOptions optfns).context).2 } ∧
        (Subscribe env st ctr topic handler optfns).2.1.config = st.config) := by
  refine ⟨⟨rfl, rfl⟩, ?_, ?_, ?_⟩
  · intro ctx hm
    simp only [resolveConcurrency, hm]
    cases ctx.concurrentHandlers <;> rfl
  · intro ctx v hm
    simp only [resolveConcurrency, hm]
  · intro env st ctr topic handler optfns h1 h2 h3
    have hs := subscribe_ok_shape env st ctr topic handler optfns h1 h2 h3
    refine ⟨subscribeResult env st ctr topic handler optfns, _, hs, rfl, rfl, ?_⟩
    rw [hs]

/-- Witness for claim C8: subscribing with a concurrency-of-4 option and no
max-in-flight option resolves both concurrency and max-in-flight to 4. -/
theorem subscribe_concurrency_and_max_in_flight_witness :
    (applyOptions defaultSubscribeOptions
        [fun o => { o with context := some { concurrentHandlers := some 4, maxInFlight := none } }]).context =
      some { concurrentHandlers := some 4, maxInFlight := none } ∧
    ∃ sub ctr1,
      Subscribe envOK st0 0 "orders" handler0
          [fun o => { o with context := some { concurrentHandlers := some 4, maxInFlight := none } }] =
        (.ok sub, { st0 with c := st0.c ++ [sub] }, ctr1) ∧
      sub.n = (resolveConcurrency (applyOptions defaultSubscribeOptions
        [fun o => { o with context := some { concurrentHandlers := some 4, maxInFlight := none } }]).context).1 ∧
      sub.c.config =
        { st0.config with
          maxInFlight := (resolveConcurrency (applyOptions defaultSubscribeOptions
            [fun o => { o with context := some { concurrentHandlers := some 4, maxInFlight := none } }]).context).2 } ∧
      (Subscribe envOK st0 0 "orders" handler0
          [fun o => { o with context := some { concurrentHandlers := some 4, maxInFlight := none } }]).2.1.config =
        st0.config :=
  ⟨rfl, subscribe_concurrency_and_max_in_flight.2.2.2 envOK st0 0 "orders" handler0
    [fun o => { o with context := some { concurrentHandlers := some 4, maxInFlight := none } }]
    (fun _ _ => rfl) (fun _ _ => rfl) (fun _ _ => rfl)⟩

/-- A concrete raw message used in scenarios. -/
def nm0 : NSQMessage := { body := [9, 9], autoResponseDisabled := false }

/-- Claim C7: for every message handed to the dispatch shim, the body is read
unchanged; auto-response is disabled exactly when the subscription is not
auto-acknowledge; a decode failure is returned to the queue client with the
caller handler not invoked; on decode success the handler is invoked with a
publication wrapping the decoded envelope and the raw message, and its return
value is propagated unchanged. -/
theorem dispatch_shim_behavior (codec : Codec) (options : SubscribeOptions) (topic : String)
    (handler : Publication → Option Err) (nm : NSQMessage) :
    ((mkShim codec options topic handler nm).msg.body = nm.body) ∧
    (options.autoAck = false →
      (mkShim codec options topic handler nm).msg.autoResponseDisabled = true) ∧
    (options.autoAck = true → (mkShim codec options topic handler nm).msg = nm) ∧
    (∀ e, codec.unmarshal nm.body = .error e →
      (mkShim codec options topic handler nm).ret = some e ∧
      (mkShim codec options topic handler nm).invoked = none) ∧
    (∀ m, codec.unmarshal nm.body = .ok m →
      (mkShim codec options topic handler nm).invoked =
        some { topic := topic, m := m, nm := (mkShim codec options topic handler nm).msg } ∧
      (mkShim codec options topic handler nm).ret =
        handler { topic := topic, m := m, nm := (mkShim codec options topic handler nm).msg }) := by
  cases ha : options.autoAck with
  | false =>
    cases hu : codec.unmarshal nm.body with
    | error e => simp [mkShim, ha, hu]
    | ok m => simp [mkShim, ha, hu]
  | true =>
    cases hu : codec.unmarshal nm.body with
    | error e => simp [mkShim, ha, hu]
    | ok m => simp [mkShim, ha, hu]

/-- Witness for claim C7: with the stand-in codec (decode succeeds) and the
always-succeeding handler, the shim invokes the handler on the wrapped
publication and propagates its success. -/
theorem dispatch_shim_behavior_witness :
    jsonCodec.unmarshal nm0.body = .ok { header := [], body := [9, 9] } ∧
    ((mkShim jsonCodec defaultSubscribeOptions "orders" handler0 nm0).invoked =
      some { topic := "orders", m := { header := [], body := [9, 9] },
             nm := (mkShim jsonCodec defaultSubscribeOptions "orders" handler0 nm0).msg } ∧
    (mkShim jsonCodec defaultSubscribeOptions "orders" handler0 nm0).ret =
      handler0 { topic := "orders", m := { header := [], body := [9, 9] },
                 nm := (mkShim jsonCodec defaultSubscribeOptions "orders" handler0 nm0).msg }) :=
  ⟨rfl, (dispatch_shim_behavior jsonCodec defaultSubscribeOptions "orders" handler0 nm0).2.2.2.2
    { header := [], body := [9, 9] } rfl⟩

/-- Claim C9: with a non-empty pool and a successful encode, Publish performs
exactly the send operation selected by the presence of the completion channel
and the positivity of the delay; each of the four combinations maps to its own
distinct operation, none is emulated by another. -/
theorem publish_dispatch_four_ops (env : Env) (i : Nat) (st : Broker) (topic : String)
    (m : Message) (optfns : List (PublishOptions → PublishOptions)) (q : Producer)
    (qs : List Producer) (b : List Nat) (hp : st.p = q :: qs)
    (hm : st.opts.codec.marshal m = .ok b) :
    (Publish env i st topic m optfns =
      .sent ((q :: qs).get ⟨i % (qs.length + 1), Nat.mod_lt _ (Nat.succ_pos _)⟩)
        (publishDecision topic b
          (resolvePublishContext (applyOptions defaultPublishOptions optfns).context).1
          (resolvePublishContext (applyOptions defaultPublishOptions optfns).context).2)
        (env.sendErr (publishDecision topic b
          (resolvePublishContext (applyOptions defaultPublishOptions optfns).context).1
          (resolvePublishContext (applyOptions defaultPublishOptions optfns).context).2))) ∧
    (∀ t d bb ch, 0 < d →
      publishDecision t bb (some ch) d = .deferredPublishAsync t d bb ch ∧
      publishDecision t bb none d = .deferredPublish t d bb) ∧
    (∀ t d bb ch, ¬ 0 < d →
      publishDecision t bb (some ch) d = .publishAsync t bb ch ∧
      publishDecision t bb none d = .publish t bb) ∧
    (∀ t d bb ch,
      List.Pairwise (fun x y => x ≠ y)
        [SendOp.deferredPublishAsync t d bb ch, SendOp.publishAsync t bb ch,
         SendOp.deferredPublish t d bb, SendOp.publish t bb]) := by
  refine ⟨?_, ?_, ?_, ?_⟩
  · obtain ⟨nsqd, lkd, opts1, cfg, run, p, cs⟩ := st
    simp only at hp hm
    subst hp
    simp only [Publish, hm]
  · intro t d bb ch hd
    simp [publishDecision, hd]
  · intro t d bb ch hd
    simp [publishDecision, hd]
  · intro t d bb ch
    simp

/-- A publish option requesting async completion on channel 7 and a 5ns delay. -/
def asyncDeferredOpt : PublishOptions → PublishOptions :=
  fun o => { o with context := some { asyncChan := some 7, deferredDelay := some 5 } }

/-- Witness for claim C9 on the concrete running broker: an async deferred
publish dispatches the deferred-async send operation. -/
theorem publish_dispatch_four_ops_witness :
    stRun.p = [{ addr := "127.0.0.1:4150", config := newConfig }] ∧
    stRun.opts.codec.marshal msg0 = .ok msg0.body ∧
    Publish envOK 0 stRun "orders" msg0 [asyncDeferredOpt] =
      .sent { addr := "127.0.0.1:4150", config := newConfig }
        (publishDecision "orders" msg0.body
          (resolvePublishContext (applyOptions defaultPublishOptions [asyncDeferredOpt]).context).1
          (resolvePublishContext (applyOptions defaultPublishOptions [asyncDeferredOpt]).context).2)
        (envOK.sendErr (publishDecision "orders" msg0.body
          (resolvePublishContext (applyOptions defaultPublishOptions [asyncDeferredOpt]).context).1
          (resolvePublishContext (applyOptions defaultPublishOptions [asyncDeferredOpt]).context).2)) :=
  ⟨rfl, rfl, (publish_dispatch_four_ops envOK 0 stRun "orders" msg0 [asyncDeferredOpt]
    { addr := "127.0.0.1:4150", config := newConfig } [] msg0.body rfl rfl).1⟩

end Nsq


